import Mathlib

/-!
Verification of the Basket-RP profile and stat-point ledger.

This file gives a shallow embedding of the rule logic of the repository:
the player-profile data model (`src/models.py`), the static configuration
(`src/config.py`), the prefix command path (`src/commands_old.py`), the
slash command path (`src/slash_commands.py`), the admin commands
(`src/admin_commands.py`), and the position-suggestion helper
(`src/utils.py`).

Modelling conventions:
* Python `int` is `Int`; Python strings are `List Char`; Python dicts with
  a fixed key set become structures or association lists in insertion
  order.
* The stats dict always has exactly the 8 stat keys, so it is a structure
  `Stats` with one `Int` field per stat, accessed through the enumeration
  `StatName`.
* `str.lower` and `str.upper` are modelled character-wise (`pyLower`,
  `pyUpper`), exact on ASCII and on the accented characters used by the
  stat table; other characters are left unchanged.
* Timestamps (`created_at`, `updated_at`) carry no verifiable content in
  the embedded rules and are omitted from the profile record.
* Fallible operations return `Except`; a Python `KeyError` on a missing
  dict key is `Except.error`.
-/

/-- The 8 statistics of a profile, in the insertion order of the
`self.stats` dict of `PlayerProfile.__init__` (src/models.py 13-22),
which is also the key order of `STAT_EMOJIS` and `STAT_ABBREVIATIONS`
(src/config.py 105-125). -/
inductive StatName where
  | force
  | precision
  | ballon
  | agilite
  | detente
  | defense
  | vitesse
  | endurance
deriving DecidableEq

/-- The stat names in declared order. -/
def statNames : List StatName :=
  [.force, .precision, .ballon, .agilite, .detente, .defense, .vitesse, .endurance]

/-- The full display name of each stat: the keys of the stats dict
(src/models.py 13-22) and of `STAT_EMOJIS` (src/config.py 105-114). -/
def fullName : StatName → List Char
  | .force => "Force Physique".data
  | .precision => "Précision".data
  | .ballon => "Manip. Ballon".data
  | .agilite => "Agilité".data
  | .detente => "Détente".data
  | .defense => "Défense".data
  | .vitesse => "Vitesse".data
  | .endurance => "Endurance".data

/-- The abbreviation of each stat: `STAT_ABBREVIATIONS` (src/config.py 116-125). -/
def abbrOf : StatName → List Char
  | .force => "FOR".data
  | .precision => "PREC".data
  | .ballon => "BALL".data
  | .agilite => "AGI".data
  | .detente => "DET".data
  | .defense => "DEF".data
  | .vitesse => "VIT".data
  | .endurance => "END".data

/-- The stats dict of a profile: one integer per stat key (src/models.py 13-22). -/
structure Stats where
  force : Int
  precision : Int
  ballon : Int
  agilite : Int
  detente : Int
  defense : Int
  vitesse : Int
  endurance : Int
deriving DecidableEq

/-- Read `self.stats[stat]`. -/
def Stats.get (s : Stats) : StatName → Int
  | .force => s.force
  | .precision => s.precision
  | .ballon => s.ballon
  | .agilite => s.agilite
  | .detente => s.detente
  | .defense => s.defense
  | .vitesse => s.vitesse
  | .endurance => s.endurance

/-- Write `self.stats[stat] = v`. -/
def Stats.set (s : Stats) : StatName → Int → Stats
  | .force, v => { s with force := v }
  | .precision, v => { s with precision := v }
  | .ballon, v => { s with ballon := v }
  | .agilite, v => { s with agilite := v }
  | .detente, v => { s with detente := v }
  | .defense, v => { s with defense := v }
  | .vitesse, v => { s with vitesse := v }
  | .endurance, v => { s with endurance := v }

/-- Mirrors `sum(self.stats.values())` (src/models.py 60-62). -/
def Stats.total (s : Stats) : Int :=
  s.force + s.precision + s.ballon + s.agilite + s.detente + s.defense +
    s.vitesse + s.endurance

/-- The player profile (src/models.py 6-33).  `created_at`/`updated_at` are
omitted (see the header). -/
structure PlayerProfile where
  user_id : Int
  username : List Char
  archetype : List Char
  stats : Stats
  available_points : Int
  character_name : List Char
  first_name : List Char
  age : Int
  height : Int
  weight : Int
  profile_image : List Char
  embed_color : Int
deriving DecidableEq

/-- Mirrors `PlayerProfile.__init__` (src/models.py 9-33): every stat 500,
no available points, empty personalization, default color. -/
def PlayerProfile.init (uid : Int) (uname arch : List Char) : PlayerProfile :=
  { user_id := uid
    username := uname
    archetype := arch
    stats := ⟨500, 500, 500, 500, 500, 500, 500, 500⟩
    available_points := 0
    character_name := []
    first_name := []
    age := 0
    height := 0
    weight := 0
    profile_image := []
    embed_color := 0xFF6B35 }

/-- Mirrors `PlayerProfile.get_total_stats` (src/models.py 60-62). -/
def PlayerProfile.get_total_stats (p : PlayerProfile) : Int :=
  p.stats.total

/-- The `stat_bonuses` tables of `ARCHETYPES` (src/config.py 5-71), keyed by
archetype name, with the bonus entries in dict insertion order.  The
`description` and `position` fields play no role in the embedded rules and
are omitted. -/
def ARCHETYPES : List (List Char × List (StatName × Int)) :=
  [("Meneur".data,
    [(.ballon, 15), (.agilite, 10), (.vitesse, 10), (.precision, 5),
     (.force, -10), (.detente, -5)]),
   ("Arrière".data,
    [(.precision, 15), (.defense, 10), (.vitesse, 5), (.agilite, 5),
     (.force, -5), (.detente, -5)]),
   ("Ailier".data,
    [(.agilite, 8), (.precision, 7), (.defense, 7), (.vitesse, 3),
     (.force, -5)]),
   ("Ailier Fort".data,
    [(.force, 15), (.detente, 10), (.defense, 8), (.endurance, 2),
     (.vitesse, -10), (.agilite, -5)]),
   ("Pivot".data,
    [(.force, 20), (.detente, 15), (.defense, 10), (.endurance, 5),
     (.vitesse, -15), (.agilite, -10), (.precision, -5)]),
   ("Généraliste".data, [])]

/-- Mirrors `PlayerProfile.apply_archetype_bonus` (src/models.py 35-41):
if the profile's archetype is a key of the catalog, each bonus entry is
folded into the stats as `max(0, min(100, stat + bonus))`.  The Python
guard `if stat in self.stats` is always true here because bonus keys are
`StatName`s. -/
def PlayerProfile.apply_archetype_bonus (p : PlayerProfile)
    (cfg : List (List Char × List (StatName × Int))) : PlayerProfile :=
  match cfg.find? (fun a => a.1 == p.archetype) with
  | none => p
  | some a =>
    let newStats :=
      a.2.foldl (fun st sb => st.set sb.1 (max 0 (min 100 (st.get sb.1 + sb.2)))) p.stats
    { p with stats := newStats }

/-- Configured stat ceiling: `BOT_CONFIG["max_stat_value"]` (src/config.py 94). -/
def max_stat_value : Int := 1000

/-- Configured base stat value: `BOT_CONFIG["base_stat_value"]` (src/config.py 96). -/
def base_stat_value : Int := 500

/-- Configured per-call allocation ceiling: `BOT_CONFIG["max_points_per_add"]`
(src/config.py 97). -/
def max_points_per_add : Int := 100

/-- The complete key set of the `BOT_CONFIG` dict (src/config.py 92-102). -/
def BOT_CONFIG_KEYS : List (List Char) :=
  ["command_prefix".data, "max_stat_value".data, "min_stat_value".data,
   "base_stat_value".data, "max_points_per_add".data, "embed_color".data,
   "success_color".data, "error_color".data, "warning_color".data]

/-- Mirrors the profile construction of the `!create` command
(src/commands_old.py 127-130): build a fresh profile, apply the archetype
bonuses from `ARCHETYPES`, then grant 200 starting points. -/
def create_new_profile (uid : Int) (uname arch : List Char) : PlayerProfile :=
  let p := PlayerProfile.init uid uname arch
  let p := p.apply_archetype_bonus ARCHETYPES
  { p with available_points := 200 }

/-- A profile freshly created with archetype Pivot, the scenario of the
spec's concrete create example. -/
def pivotProfile : PlayerProfile :=
  create_new_profile 42 "u".data "Pivot".data

/-- C1 evaluation theorem. -/
theorem pivot_create_clamps_at_100 :
    pivotProfile.stats = ⟨100, 100, 500, 100, 100, 100, 100, 100⟩ ∧
    pivotProfile.get_total_stats = 1200 ∧
    pivotProfile.stats.force ≠ 520 ∧
    pivotProfile.get_total_stats ≠ 4020 := by
  decide

/-- Generic assoc-list read modelling a Python dict subscript on lists of
key-value pairs. -/
def dictLookup {α : Type} (k : List Char) (d : List (List Char × α)) : Option α :=
  (d.find? (fun e => e.1 == k)).map (fun e => e.2)

/-- View of `BOT_CONFIG` restricted to entries whose value is a per-stat
integer table.  `BOT_CONFIG` (src/config.py 92-102) contains no such entry
— in particular no "base_stats" key — so this view is empty. -/
def BOT_CONFIG_STAT_TABLES : List (List Char × List (StatName × Int)) := []

/-- View of `BOT_CONFIG` restricted to entries whose value is a table of
per-archetype bonus tables.  `BOT_CONFIG` (src/config.py 92-102) contains
no such entry — in particular no "archetype_bonuses" key — so this view is
empty. -/
def BOT_CONFIG_BONUS_TABLES :
    List (List Char × List (List Char × List (StatName × Int))) := []

/-- Fold an association list of per-stat values into a `Stats` record,
starting from `dflt` for keys the list does not mention. -/
def statsOfAssoc (l : List (StatName × Int)) (dflt : Stats) : Stats :=
  l.foldl (fun acc e => acc.set e.1 e.2) dflt

/-- Mirrors the confirm handler of `/resetplayer`
(src/admin_commands.py 358-370).  The handler first evaluates
`BOT_CONFIG["base_stats"]` and then `BOT_CONFIG["archetype_bonuses"]`; a
missing key is a Python `KeyError`, modelled as `Except.error` carrying the
key.  Only if both keys existed would the handler add the archetype
bonuses onto the base table, replace the profile's stats with it and zero
`available_points` — that continuation is translated below but is
unreachable because `BOT_CONFIG` has neither key. -/
def reset_player_confirm (p : PlayerProfile) : Except (List Char) PlayerProfile :=
  match dictLookup "base_stats".data BOT_CONFIG_STAT_TABLES with
  | none => .error "KeyError: base_stats".data
  | some base_stats =>
    match dictLookup "archetype_bonuses".data BOT_CONFIG_BONUS_TABLES with
    | none => .error "KeyError: archetype_bonuses".data
    | some tables =>
      let bonuses := (dictLookup p.archetype tables).getD []
      let base_stats :=
        base_stats.map (fun e =>
          (e.1, e.2 + (((bonuses.find? (fun b => b.1 == e.1)).map (fun b => b.2)).getD 0)))
      .ok { p with stats := statsOfAssoc base_stats p.stats
                   available_points := 0 }

/-- C2 theorem: confirming `/resetplayer` always raises `KeyError` on
`BOT_CONFIG["base_stats"]`; no stats are recomputed and `availablePoints`
is never set to 0. -/
theorem reset_player_always_key_errors (p : PlayerProfile) :
    reset_player_confirm p = .error "KeyError: base_stats".data := by
  rfl

/-- Character-wise model of Python `str.lower`: exact on ASCII letters and
on the accented letters appearing in the stat table; other characters are
left unchanged. -/
def pyLower (c : Char) : Char :=
  if 'A' ≤ c ∧ c ≤ 'Z' then Char.ofNat (c.toNat + 32)
  else if c = 'É' then 'é'
  else if c = 'È' then 'è'
  else c

/-- Character-wise model of Python `str.upper`, inverse convention of
`pyLower`. -/
def pyUpper (c : Char) : Char :=
  if 'a' ≤ c ∧ c ≤ 'z' then Char.ofNat (c.toNat - 32)
  else if c = 'é' then 'É'
  else if c = 'è' then 'È'
  else c

/-- Python `s.lower()`. -/
def lowerStr (s : List Char) : List Char :=
  s.map pyLower

/-- Python `s.upper()`. -/
def upperStr (s : List Char) : List Char :=
  s.map pyUpper

/-- Whether `pat` occurs at the very beginning of `s`. -/
def takesLead : List Char → List Char → Bool
  | [], _ => true
  | _ :: _, [] => false
  | a :: pat, b :: s => a == b && takesLead pat s

/-- Python's substring containment test `pat in s` for strings: `pat`
occurs contiguously somewhere in `s`. -/
def occursIn (pat : List Char) : List Char → Bool
  | [] => takesLead pat []
  | b :: s => takesLead pat (b :: s) || occursIn pat s

/-- Mirrors `validate_stat_name` (src/config.py 156-173): first an exact
match against the keys of `STAT_EMOJIS`, then `stat_name.upper()` against
the abbreviations, then a case-insensitive substring match against the
keys, each scanning in dict insertion order; `None` if all three fail. -/
def validate_stat_name (s : List Char) : Option StatName :=
  match statNames.find? (fun n => fullName n == s) with
  | some n => some n
  | none =>
  match statNames.find? (fun n => upperStr s == abbrOf n) with
  | some n => some n
  | none => statNames.find? (fun n => occursIn (lowerStr s) (lowerStr (fullName n)))

/-- Modelled from the spec's words for stat-name resolution: a
case-insensitive exact match, then an abbreviation match, then a
case-insensitive substring match, in that priority order with the first
match winning.  Used only to compare against `validate_stat_name`. -/
def spec_resolve (s : List Char) : Option StatName :=
  match statNames.find? (fun n => lowerStr (fullName n) == lowerStr s) with
  | some n => some n
  | none =>
  match statNames.find? (fun n => upperStr s == abbrOf n) with
  | some n => some n
  | none => statNames.find? (fun n => occursIn (lowerStr s) (lowerStr (fullName n)))

/-- Python `stat in self.stats` membership plus key identification: the
stats dict holds exactly the 8 full stat names as keys
(src/models.py 13-22, 45). -/
def statOfName (s : List Char) : Option StatName :=
  statNames.find? (fun n => fullName n == s)

/-- Mirrors `PlayerProfile.add_stat_points` (src/models.py 43-58).  The
Python method mutates the profile and returns a bool; the model returns
the bool together with the (possibly unchanged) profile. -/
def PlayerProfile.add_stat_points (p : PlayerProfile) (stat : List Char)
    (points : Int) : Bool × PlayerProfile :=
  match statOfName stat with
  | none => (false, p)
  | some st =>
    if points < 0 ∨ points > p.available_points then (false, p)
    else
      let new_value := p.stats.get st + points
      if new_value > 1000 then (false, p)
      else
        (true, { p with stats := p.stats.set st new_value
                        available_points := p.available_points - points })

/-- Validation failures of the allocation and admin command paths
(src/commands_old.py 167-267, src/slash_commands.py 252-325,
src/admin_commands.py 109-162), one constructor per distinct error
response. -/
inductive CmdError where
  | invalidStat
  | invalidAmount
  | exceedsBatchLimit
  | insufficientPoints
  | statCeilingExceeded (maxAddable : Int)
  | modelRejected
  | outOfRange
deriving DecidableEq

/-- Mirrors the `/addstat` slash command once a profile is loaded
(src/slash_commands.py 252-297).  `statistique` is constrained by the
command's fixed choices to one of the 8 stat names, hence a `StatName`
parameter.  Checks in source order: `points <= 0`, then
`points > available_points`, then the ceiling against
`BOT_CONFIG["max_stat_value"]` (reporting the remaining headroom), then
the unchecked mutation `stats[statistique] += points;
available_points -= points`.  There is no batch-limit check on this path. -/
def slash_add_stat (p : PlayerProfile) (st : StatName) (points : Int) :
    Except CmdError PlayerProfile :=
  if points ≤ 0 then .error .invalidAmount
  else if points > p.available_points then .error .insufficientPoints
  else
    let current_stat := p.stats.get st
    if current_stat + points > max_stat_value then
      .error (.statCeilingExceeded (max_stat_value - current_stat))
    else
      .ok { p with stats := p.stats.set st (current_stat + points)
                   available_points := p.available_points - points }

/-- Mirrors the `!add` prefix command once a profile is loaded
(src/commands_old.py 167-267).  Checks in source order:
`validate_stat_name`, `points <= 0`,
`points > BOT_CONFIG["max_points_per_add"]`,
`points > available_points`, the ceiling against
`BOT_CONFIG["max_stat_value"]`, and finally the call
`profile.add_stat_points(validated_stat, points)` (whose `False` branch is
the command's generic failure response at line 261-267). -/
def add_cmd (p : PlayerProfile) (stat_name : List Char) (points : Int) :
    Except CmdError PlayerProfile :=
  match validate_stat_name stat_name with
  | none => .error .invalidStat
  | some st =>
    if points ≤ 0 then .error .invalidAmount
    else if points > max_points_per_add then .error .exceedsBatchLimit
    else if points > p.available_points then .error .insufficientPoints
    else if p.stats.get st + points > max_stat_value then
      .error (.statCeilingExceeded (max_stat_value - p.stats.get st))
    else
      match p.add_stat_points (fullName st) points with
      | (true, q) => .ok q
      | (false, _) => .error .modelRejected

/-- Mirrors the `/setstat` admin command once permissions are checked and
the profile is loaded (src/admin_commands.py 109-155): reject
`valeur < 0` or `valeur > BOT_CONFIG["max_stat_value"]`, otherwise set the
chosen stat to the value directly. -/
def admin_set_stat (p : PlayerProfile) (st : StatName) (valeur : Int) :
    Except CmdError PlayerProfile :=
  if valeur < 0 ∨ valeur > max_stat_value then .error .outOfRange
  else .ok { p with stats := p.stats.set st valeur }

/-- Mirrors `DatabaseManager.get_profile` (src/models.py 165-197) over an
in-memory view of the `player_profiles` table keyed by `user_id`. -/
def db_get (db : List (Int × PlayerProfile)) (uid : Int) : Option PlayerProfile :=
  (db.find? (fun e => e.1 == uid)).map (fun e => e.2)

/-- Mirrors `DatabaseManager.save_profile` (src/models.py 142-163):
`INSERT OR REPLACE` keyed by `user_id`. -/
def db_save (db : List (Int × PlayerProfile)) (p : PlayerProfile) :
    List (Int × PlayerProfile) :=
  if (db.find? (fun e => e.1 == p.user_id)).isSome then
    db.map (fun e => if e.1 == p.user_id then (e.1, p) else e)
  else
    db ++ [(p.user_id, p)]

/-- Creation failure of the `!create` / `/create` commands. -/
inductive CreateError where
  | alreadyExists
deriving DecidableEq

/-- Mirrors the `!create` command (src/commands_old.py 110-133): if
`get_profile` finds an existing row the command answers "Profil existant"
and returns without touching the store; otherwise it builds the new
profile and saves it.  Returns the outcome together with the resulting
store. -/
def create_cmd (db : List (Int × PlayerProfile)) (uid : Int)
    (uname arch : List Char) :
    Except CreateError PlayerProfile × List (Int × PlayerProfile) :=
  match db_get db uid with
  | some _ => (.error .alreadyExists, db)
  | none =>
    let p := create_new_profile uid uname arch
    (.ok p, db_save db p)

instance {ε α : Type} [DecidableEq ε] [DecidableEq α] : DecidableEq (Except ε α) :=
  fun a b =>
  match a, b with
  | .error e, .error f => decidable_of_iff (e = f) (by simp)
  | .error _, .ok _ => isFalse (by simp)
  | .ok _, .error _ => isFalse (by simp)
  | .ok a, .ok b => decidable_of_iff (a = b) (by simp)

theorem Stats.get_set_self (s : Stats) (st : StatName) (v : Int) :
    (s.set st v).get st = v := by
  cases st <;> rfl

theorem Stats.get_set_ne (s : Stats) (st st₂ : StatName) (v : Int) (h : st₂ ≠ st) :
    (s.set st v).get st₂ = s.get st₂ := by
  cases st <;> cases st₂ <;> first | rfl | exact absurd rfl h

theorem Stats.set_get_self (s : Stats) (st : StatName) : s.set st (s.get st) = s := by
  cases st <;> rfl

theorem statOfName_fullName (st : StatName) : statOfName (fullName st) = some st := by
  cases st <;> decide

theorem validate_fullName (st : StatName) :
    validate_stat_name (fullName st) = some st := by
  cases st <;> decide

/-- A freshly created profile with the bonus-free archetype: every stat
500 and 200 available points.  Used as a concrete input in witnesses and
counterexamples. -/
def genPr : PlayerProfile :=
  create_new_profile 1 "u".data "Généraliste".data

/-- C8 theorem: `/setstat` rejects exactly the values outside
`[0, max_stat_value]`, and on success writes only the chosen stat,
leaving `available_points`, every other stat, and the identifying fields
unchanged. -/
theorem set_stat_range_and_frame (p : PlayerProfile) (st : StatName) (v : Int) :
    (admin_set_stat p st v = .error .outOfRange ↔ (v < 0 ∨ v > max_stat_value)) ∧
    (∀ q, admin_set_stat p st v = .ok q →
      q.stats.get st = v ∧
      q.available_points = p.available_points ∧
      (∀ st₂, st₂ ≠ st → q.stats.get st₂ = p.stats.get st₂) ∧
      q.user_id = p.user_id ∧ q.archetype = p.archetype) := by
  unfold admin_set_stat
  by_cases h : v < 0 ∨ v > max_stat_value
  · rw [if_pos h]
    refine ⟨⟨fun _ => h, fun _ => rfl⟩, ?_⟩
    intro q hq
    exact absurd hq (by simp)
  · rw [if_neg h]
    refine ⟨⟨fun hq => absurd hq (by simp), fun hv => absurd hv h⟩, ?_⟩
    intro q hq
    have hq2 : { p with stats := p.stats.set st v } = q := by
      simpa using hq
    subst hq2
    refine ⟨Stats.get_set_self p.stats st v, rfl, ?_, rfl, rfl⟩
    intro st₂ hne
    exact Stats.get_set_ne p.stats st st₂ v hne

/-- C8 witness at a concrete input. -/
theorem set_stat_range_and_frame_witness :
    (admin_set_stat genPr .force 777 = .error .outOfRange ↔
      ((777 : Int) < 0 ∨ (777 : Int) > max_stat_value)) ∧
    ({ genPr with stats := genPr.stats.set .force 777 }.stats.get .force = 777 ∧
     { genPr with stats := genPr.stats.set .force 777 }.available_points =
       genPr.available_points) := by
  have h := set_stat_range_and_frame genPr .force 777
  have h2 := h.2 { genPr with stats := genPr.stats.set .force 777 } (by decide)
  exact ⟨h.1, h2.1, h2.2.1⟩

/-- C10 theorem: at the model interface, `add_stat_points` with 0 points
on a recognized stat name succeeds and changes neither any stat value nor
`available_points` (given a state with a non-negative balance and the
stat within the 1000 ceiling, which every profile reachable through the
commands satisfies). -/
theorem add_zero_points_succeeds (p : PlayerProfile) (s : List Char) (st : StatName)
    (hrec : statOfName s = some st)
    (hav : 0 ≤ p.available_points)
    (hst : p.stats.get st ≤ 1000) :
    (p.add_stat_points s 0).1 = true ∧
    (p.add_stat_points s 0).2.stats = p.stats ∧
    (p.add_stat_points s 0).2.available_points = p.available_points := by
  have h1 : ¬((0 : Int) < 0 ∨ (0 : Int) > p.available_points) := by omega
  have h2 : ¬(p.stats.get st + 0 > 1000) := by omega
  have hres : p.add_stat_points s 0 =
      (true, { p with stats := p.stats.set st (p.stats.get st + 0),
                      available_points := p.available_points - 0 }) := by
    simp only [PlayerProfile.add_stat_points, hrec, if_neg h1, if_neg h2]
  rw [hres]
  refine ⟨rfl, ?_, ?_⟩
  · show p.stats.set st (p.stats.get st + 0) = p.stats
    rw [Int.add_zero, Stats.set_get_self]
  · show p.available_points - 0 = p.available_points
    omega

/-- C10 witness at a concrete input. -/
theorem add_zero_points_succeeds_witness :
    (genPr.add_stat_points "Force Physique".data 0).1 = true ∧
    (genPr.add_stat_points "Force Physique".data 0).2.stats = genPr.stats ∧
    (genPr.add_stat_points "Force Physique".data 0).2.available_points =
      genPr.available_points :=
  add_zero_points_succeeds genPr "Force Physique".data .force (by decide) (by decide)
    (by decide)

theorem find?_append_none {α : Type} (p : α → Bool) :
    ∀ l₁ l₂ : List α, l₁.find? p = none → (l₁ ++ l₂).find? p = l₂.find? p
  | [], _, _ => rfl
  | x :: t, l₂, h => by
    have hx : ¬ p x = true := by
      intro hc
      rw [List.find?_cons_of_pos _ hc] at h
      exact Option.noConfusion h
    rw [List.cons_append, List.find?_cons_of_neg _ hx]
    rw [List.find?_cons_of_neg _ hx] at h
    exact find?_append_none p t l₂ h

theorem find?_map_replace (uid : Int) (q : PlayerProfile) :
    ∀ db : List (Int × PlayerProfile),
      (db.find? (fun e => e.1 == uid)).isSome = true →
      ((db.map (fun e => if e.1 == uid then (e.1, q) else e)).find?
        (fun e => e.1 == uid)) = some (uid, q)
  | [], h => by simp at h
  | x :: t, h => by
    cases hx : (x.1 == uid) with
    | true =>
      have hxe : x.1 = uid := by simpa using hx
      simp [List.find?_cons, hxe]
    | false =>
      simp only [List.find?_cons, hx] at h
      simp only [List.map_cons, hx, Bool.false_eq_true, if_false, List.find?_cons]
      exact find?_map_replace uid q t h

theorem db_get_save_self (db : List (Int × PlayerProfile)) (q : PlayerProfile) :
    db_get (db_save db q) q.user_id = some q := by
  unfold db_save
  by_cases hf : (db.find? (fun e => e.1 == q.user_id)).isSome = true
  · rw [if_pos hf]
    unfold db_get
    rw [find?_map_replace q.user_id q db hf]
    rfl
  · rw [if_neg hf]
    have hnone : db.find? (fun e => e.1 == q.user_id) = none := by
      rcases h : db.find? (fun e => e.1 == q.user_id) with _ | v
      · exact h
      · rw [h] at hf; simp at hf
    unfold db_get
    rw [find?_append_none _ db _ hnone]
    simp [List.find?]

theorem apply_bonus_user_id (p : PlayerProfile)
    (cfg : List (List Char × List (StatName × Int))) :
    (p.apply_archetype_bonus cfg).user_id = p.user_id := by
  unfold PlayerProfile.apply_archetype_bonus
  rcases h : cfg.find? (fun a => a.1 == p.archetype) with _ | a <;> rw [h]

theorem create_new_profile_user_id (uid : Int) (u a : List Char) :
    (create_new_profile uid u a).user_id = uid := by
  unfold create_new_profile
  rw [apply_bonus_user_id]
  rfl

theorem create_cmd_of_none (db : List (Int × PlayerProfile)) (uid : Int)
    (u a : List Char) (h : db_get db uid = none) :
    create_cmd db uid u a =
      (.ok (create_new_profile uid u a), db_save db (create_new_profile uid u a)) := by
  unfold create_cmd
  rw [h]

theorem create_cmd_of_some (db : List (Int × PlayerProfile)) (uid : Int)
    (u a : List Char) (q : PlayerProfile) (h : db_get db uid = some q) :
    create_cmd db uid u a = (.error .alreadyExists, db) := by
  unfold create_cmd
  rw [h]

/-- C7 theorem: when no profile is stored for a player id, `create`
succeeds and persists the new profile, and a second `create` for the same
id fails with the already-exists error, leaves the store untouched, and
the stored profile is still the one written by the first call. -/
theorem create_not_idempotent (db : List (Int × PlayerProfile)) (uid : Int)
    (u1 a1 u2 a2 : List Char) (h : db_get db uid = none) :
    (create_cmd db uid u1 a1).1 = .ok (create_new_profile uid u1 a1) ∧
    (create_cmd (create_cmd db uid u1 a1).2 uid u2 a2).1 = .error .alreadyExists ∧
    (create_cmd (create_cmd db uid u1 a1).2 uid u2 a2).2 = (create_cmd db uid u1 a1).2 ∧
    db_get (create_cmd (create_cmd db uid u1 a1).2 uid u2 a2).2 uid =
      some (create_new_profile uid u1 a1) := by
  have h1 := create_cmd_of_none db uid u1 a1 h
  have hg : db_get (db_save db (create_new_profile uid u1 a1)) uid =
      some (create_new_profile uid u1 a1) := by
    have h2 := db_get_save_self db (create_new_profile uid u1 a1)
    rwa [create_new_profile_user_id] at h2
  have h3 := create_cmd_of_some (db_save db (create_new_profile uid u1 a1)) uid u2 a2
    (create_new_profile uid u1 a1) hg
  rw [h1]
  refine ⟨rfl, ?_, ?_, ?_⟩
  · show (create_cmd (db_save db (create_new_profile uid u1 a1)) uid u2 a2).1 =
      Except.error CreateError.alreadyExists
    rw [h3]
  · show (create_cmd (db_save db (create_new_profile uid u1 a1)) uid u2 a2).2 =
      db_save db (create_new_profile uid u1 a1)
    rw [h3]
  · show db_get (create_cmd (db_save db (create_new_profile uid u1 a1)) uid u2 a2).2 uid =
      some (create_new_profile uid u1 a1)
    rw [h3]
    exact hg

/-- C7 witness at a concrete input. -/
theorem create_not_idempotent_witness :
    (create_cmd (create_cmd [] 1 "u".data "Pivot".data).2 1 "v".data "Meneur".data).1 =
      .error .alreadyExists ∧
    db_get (create_cmd (create_cmd [] 1 "u".data "Pivot".data).2 1 "v".data "Meneur".data).2 1 =
      some (create_new_profile 1 "u".data "Pivot".data) := by
  have h := create_not_idempotent [] 1 "u".data "Pivot".data "v".data "Meneur".data rfl
  exact ⟨h.2.1, h.2.2.2⟩

theorem slash_add_stat_eq (p : PlayerProfile) (st : StatName) (pts : Int) :
    slash_add_stat p st pts =
      if pts ≤ 0 then .error .invalidAmount
      else if pts > p.available_points then .error .insufficientPoints
      else if p.stats.get st + pts > max_stat_value then
        .error (.statCeilingExceeded (max_stat_value - p.stats.get st))
      else .ok { p with stats := p.stats.set st (p.stats.get st + pts),
                        available_points := p.available_points - pts } := rfl

theorem add_stat_points_eq (p : PlayerProfile) (s : List Char) (st : StatName) (pts : Int)
    (hs : statOfName s = some st) :
    p.add_stat_points s pts =
      if pts < 0 ∨ pts > p.available_points then (false, p)
      else if p.stats.get st + pts > 1000 then (false, p)
      else (true, { p with stats := p.stats.set st (p.stats.get st + pts),
                           available_points := p.available_points - pts }) := by
  unfold PlayerProfile.add_stat_points
  rw [hs]

theorem add_cmd_eq (p : PlayerProfile) (s : List Char) (st : StatName) (pts : Int)
    (hv : validate_stat_name s = some st) :
    add_cmd p s pts =
      if pts ≤ 0 then .error .invalidAmount
      else if pts > max_points_per_add then .error .exceedsBatchLimit
      else if pts > p.available_points then .error .insufficientPoints
      else if p.stats.get st + pts > max_stat_value then
        .error (.statCeilingExceeded (max_stat_value - p.stats.get st))
      else
        match p.add_stat_points (fullName st) pts with
        | (true, q) => .ok q
        | (false, _) => .error .modelRejected := by
  unfold add_cmd
  rw [hv]

/-- C3 counterexample: on the slash path a request of 150 points — above
the configured 100-point per-call ceiling — is not rejected with the
batch-limit error; it succeeds and mutates the stat and the balance. -/
theorem slash_ignores_batch_limit_cex :
    max_points_per_add < 150 ∧
    slash_add_stat genPr .force 150 ≠ .error .exceedsBatchLimit ∧
    slash_add_stat genPr .force 150 =
      .ok { genPr with stats := genPr.stats.set .force 650, available_points := 50 } := by
  decide

/-- C3 amended theorem: the 100-point per-call ceiling is enforced on the
legacy prefix path — any recognized-stat request above it fails with the
batch-limit error before anything is mutated — while the slash path
enforces no such ceiling: a request above it succeeds whenever the
balance and the stat ceiling allow it. -/
theorem batch_limit_on_prefix_path_only :
    (∀ (p : PlayerProfile) (s : List Char) (pts : Int),
      (validate_stat_name s).isSome = true → max_points_per_add < pts →
      add_cmd p s pts = .error .exceedsBatchLimit) ∧
    (∀ (p : PlayerProfile) (st : StatName) (pts : Int),
      max_points_per_add < pts → pts ≤ p.available_points →
      p.stats.get st + pts ≤ max_stat_value →
      (slash_add_stat p st pts).isOk = true) := by
  constructor
  · intro p s pts hv hpts
    rcases ho : validate_stat_name s with _ | st
    · rw [ho] at hv
      simp at hv
    · have h100 : (100 : Int) < pts := by
        simpa [max_points_per_add] using hpts
      rw [add_cmd_eq p s st pts ho, if_neg (show ¬ pts ≤ 0 by omega), if_pos hpts]
  · intro p st pts h1 h2 h3
    have h100 : (100 : Int) < pts := by
      simpa [max_points_per_add] using h1
    rw [slash_add_stat_eq, if_neg (by omega), if_neg (by omega), if_neg (by omega)]
    rfl

/-- C3 amended-theorem witness at concrete inputs. -/
theorem batch_limit_on_prefix_path_only_witness :
    add_cmd genPr "FOR".data 150 = .error .exceedsBatchLimit ∧
    (slash_add_stat genPr .force 150).isOk = true :=
  ⟨batch_limit_on_prefix_path_only.1 genPr "FOR".data 150 (by decide) (by decide),
   batch_limit_on_prefix_path_only.2 genPr .force 150 (by decide) (by decide) (by decide)⟩

/-- The profile obtained from `genPr` by a successful 10-point allocation
to Force Physique, used as a concrete witness value. -/
def genPrAdded : PlayerProfile :=
  { genPr with stats := genPr.stats.set .force 510, available_points := 190 }

/-- C5 theorem: every successful allocation, on the slash path and on the
prefix path, adds exactly the requested points to the chosen stat and
subtracts exactly that amount from the balance (other stats untouched),
and success is attainable on both paths throughout the full legal range
1 ≤ points ≤ min(batch limit, available points, remaining headroom). -/
theorem allocation_conservation_and_range :
    (∀ (p : PlayerProfile) (st : StatName) (pts : Int) (q : PlayerProfile),
      slash_add_stat p st pts = .ok q →
      q.stats.get st = p.stats.get st + pts ∧
      q.available_points = p.available_points - pts ∧
      (∀ st₂, st₂ ≠ st → q.stats.get st₂ = p.stats.get st₂)) ∧
    (∀ (p : PlayerProfile) (s : List Char) (st : StatName) (pts : Int) (q : PlayerProfile),
      validate_stat_name s = some st → add_cmd p s pts = .ok q →
      q.stats.get st = p.stats.get st + pts ∧
      q.available_points = p.available_points - pts) ∧
    (∀ (p : PlayerProfile) (st : StatName) (pts : Int),
      1 ≤ pts →
      pts ≤ min (min max_points_per_add p.available_points)
        (max_stat_value - p.stats.get st) →
      (slash_add_stat p st pts).isOk = true ∧
      (add_cmd p (fullName st) pts).isOk = true) := by
  refine ⟨?_, ?_, ?_⟩
  · intro p st pts q h
    rw [slash_add_stat_eq] at h
    split_ifs at h with h1 h2 h3
    have hq : { p with stats := p.stats.set st (p.stats.get st + pts),
                       available_points := p.available_points - pts } = q := by
      simpa using h
    subst hq
    exact ⟨Stats.get_set_self p.stats st _, rfl,
      fun st₂ hne => Stats.get_set_ne p.stats st st₂ _ hne⟩
  · intro p s st pts q hv h
    rw [add_cmd_eq p s st pts hv] at h
    split_ifs at h with h1 h2 h3 h4
    rw [add_stat_points_eq p (fullName st) st pts (statOfName_fullName st),
      if_neg (show ¬ (pts < 0 ∨ pts > p.available_points) by omega),
      if_neg (show ¬ p.stats.get st + pts > 1000 by
        simp only [max_stat_value] at h4; omega)] at h
    have hq : { p with stats := p.stats.set st (p.stats.get st + pts),
                       available_points := p.available_points - pts } = q := by
      simpa using h
    subst hq
    exact ⟨Stats.get_set_self p.stats st _, rfl⟩
  · intro p st pts hlo hhi
    simp only [le_min_iff] at hhi
    obtain ⟨⟨ha, hb⟩, hc⟩ := hhi
    simp only [max_points_per_add] at ha
    simp only [max_stat_value] at hc
    constructor
    · rw [slash_add_stat_eq, if_neg (show ¬ pts ≤ 0 by omega),
        if_neg (show ¬ pts > p.available_points by omega),
        if_neg (show ¬ p.stats.get st + pts > max_stat_value by
          simp only [max_stat_value]; omega)]
      rfl
    · rw [add_cmd_eq p (fullName st) st pts (validate_fullName st),
        if_neg (show ¬ pts ≤ 0 by omega),
        if_neg (show ¬ pts > max_points_per_add by
          simp only [max_points_per_add]; omega),
        if_neg (show ¬ pts > p.available_points by omega),
        if_neg (show ¬ p.stats.get st + pts > max_stat_value by
          simp only [max_stat_value]; omega),
        add_stat_points_eq p (fullName st) st pts (statOfName_fullName st),
        if_neg (show ¬ (pts < 0 ∨ pts > p.available_points) by omega),
        if_neg (show ¬ p.stats.get st + pts > 1000 by omega)]
      rfl

/-- C5 witness at concrete inputs. -/
theorem allocation_conservation_and_range_witness :
    (genPrAdded.stats.get .force = genPr.stats.get .force + 10 ∧
     genPrAdded.available_points = genPr.available_points - 10) ∧
    (genPrAdded.stats.get .vitesse = genPr.stats.get .vitesse) ∧
    (slash_add_stat genPr .force 10).isOk = true ∧
    (add_cmd genPr (fullName .force) 10).isOk = true := by
  have h1 := allocation_conservation_and_range.1 genPr .force 10 genPrAdded (by decide)
  have h2 := allocation_conservation_and_range.2.1 genPr "FOR".data .force 10 genPrAdded
    (by decide) (by decide)
  have h3 := allocation_conservation_and_range.2.2 genPr .force 10 (by decide) (by decide)
  exact ⟨⟨h2.1, h1.2.1⟩, h1.2.2 .vitesse (by decide), h3.1, h3.2⟩

/-- A profile with Vitesse at 995 and 50 available points, the spec's
near-ceiling scenario. -/
def nearCapProfile : PlayerProfile :=
  { genPr with stats := genPr.stats.set .vitesse 995, available_points := 50 }

/-- C6 counterexample: with Vitesse 995 and only 50 points available, a
request of 60 points overshoots the ceiling (995 + 60 > 1000) yet the
slash path reports insufficient points, not the ceiling error — so the
ceiling error does not occur exactly when `oldStat + points > STAT_MAX`. -/
theorem insufficient_masks_ceiling_cex :
    max_stat_value < nearCapProfile.stats.get .vitesse + 60 ∧
    slash_add_stat nearCapProfile .vitesse 60 = .error .insufficientPoints ∧
    slash_add_stat nearCapProfile .vitesse 60 ≠
      .error (.statCeilingExceeded (max_stat_value - nearCapProfile.stats.get .vitesse)) := by
  decide

/-- C6 amended theorem: on both allocation paths the ceiling error occurs
exactly when the request passes the earlier checks (positive points,
within the batch limit on the prefix path, covered by the balance) and
`oldStat + points > STAT_MAX`; in that case the reported maximum addable
amount is `STAT_MAX - oldStat`, and no profile is produced. -/
theorem stat_ceiling_iff :
    (∀ (p : PlayerProfile) (st : StatName) (pts m : Int),
      slash_add_stat p st pts = .error (.statCeilingExceeded m) ↔
        (m = max_stat_value - p.stats.get st ∧ 0 < pts ∧ pts ≤ p.available_points ∧
         max_stat_value < p.stats.get st + pts)) ∧
    (∀ (p : PlayerProfile) (st : StatName) (pts m : Int),
      add_cmd p (fullName st) pts = .error (.statCeilingExceeded m) ↔
        (m = max_stat_value - p.stats.get st ∧ 0 < pts ∧ pts ≤ max_points_per_add ∧
         pts ≤ p.available_points ∧ max_stat_value < p.stats.get st + pts)) := by
  constructor
  · intro p st pts m
    rw [slash_add_stat_eq]
    split_ifs with h1 h2 h3
    · refine ⟨fun hc => absurd hc (by simp), fun hc => ?_⟩
      exfalso
      omega
    · refine ⟨fun hc => absurd hc (by simp), fun hc => ?_⟩
      exfalso
      omega
    · simp only [Except.error.injEq, CmdError.statCeilingExceeded.injEq]
      constructor
      · intro he
        exact ⟨he.symm, by omega, by omega, h3⟩
      · intro hc
        exact hc.1.symm
    · refine ⟨fun hc => absurd hc (by simp), fun hc => ?_⟩
      exfalso
      exact h3 hc.2.2.2
  · intro p st pts m
    rw [add_cmd_eq p (fullName st) st pts (validate_fullName st)]
    split_ifs with h1 h2 h3 h4
    · refine ⟨fun hc => absurd hc (by simp), fun hc => ?_⟩
      exfalso
      omega
    · refine ⟨fun hc => absurd hc (by simp), fun hc => ?_⟩
      exfalso
      omega
    · refine ⟨fun hc => absurd hc (by simp), fun hc => ?_⟩
      exfalso
      omega
    · simp only [Except.error.injEq, CmdError.statCeilingExceeded.injEq]
      constructor
      · intro he
        exact ⟨he.symm, by omega, by omega, by omega, h4⟩
      · intro hc
        exact hc.1.symm
    · rw [add_stat_points_eq p (fullName st) st pts (statOfName_fullName st),
        if_neg (show ¬ (pts < 0 ∨ pts > p.available_points) by omega),
        if_neg (show ¬ p.stats.get st + pts > 1000 by
          simp only [max_stat_value] at h4; omega)]
      refine ⟨fun hc => absurd hc (by simp), fun hc => ?_⟩
      exfalso
      exact h4 hc.2.2.2.2

/-- C6 amended-theorem witness: the spec's near-ceiling scenario, where
allocating 10 to Vitesse 995 reports a maximum addable amount of 5. -/
theorem stat_ceiling_iff_witness :
    slash_add_stat nearCapProfile .vitesse 10 = .error (.statCeilingExceeded 5) :=
  (stat_ceiling_iff.1 nearCapProfile .vitesse 10 5).mpr (by decide)

/-- The five position scores of `get_position_from_stats`
(src/utils.py 118-133): unweighted three-stat means keyed by position
name, in dict insertion order.  Python computes the means as floats; they
are modelled as exact rationals, which order sums of integer stats the
same way. -/
def position_scores (stats : Stats) : List (List Char × ℚ) :=
  [("Meneur".data, ((stats.ballon + stats.agilite + stats.vitesse : Int) : ℚ) / 3),
   ("Arrière".data, ((stats.precision + stats.defense + stats.vitesse : Int) : ℚ) / 3),
   ("Ailier".data, ((stats.agilite + stats.precision + stats.defense : Int) : ℚ) / 3),
   ("Ailier Fort".data, ((stats.force + stats.detente + stats.defense : Int) : ℚ) / 3),
   ("Pivot".data, ((stats.force + stats.detente + stats.endurance : Int) : ℚ) / 3)]

/-- Python `max(iterable, key=f)`: scan keeping the current best and
replace it only on a strictly greater score, so among tied maxima the
first one encountered wins. -/
def maxByFirst (x : List Char × ℚ) : List (List Char × ℚ) → List Char × ℚ
  | [] => x
  | y :: ys => maxByFirst (if x.2 < y.2 then y else x) ys

/-- Mirrors `get_position_from_stats` (src/utils.py 118-135):
`max(positions.keys(), key=lambda x: positions[x])` over the five scores.
The dict is never empty, so the nil branch is unreachable. -/
def get_position_from_stats (stats : Stats) : List Char :=
  match position_scores stats with
  | [] => []
  | x :: xs => (maxByFirst x xs).1

theorem maxByFirst_spec (l : List (List Char × ℚ)) :
    ∀ x : List Char × ℚ,
      (maxByFirst x l = x ∧ ∀ y ∈ l, y.2 ≤ x.2) ∨
      (∃ l₁ y l₂, l = l₁ ++ y :: l₂ ∧ maxByFirst x l = y ∧ x.2 < y.2 ∧
        (∀ z ∈ l₁, z.2 < y.2) ∧ (∀ z ∈ l₂, z.2 ≤ y.2)) := by
  induction l with
  | nil =>
    intro x
    exact .inl ⟨rfl, by simp⟩
  | cons a t ih =>
    intro x
    have hstep : maxByFirst x (a :: t) = maxByFirst (if x.2 < a.2 then a else x) t := rfl
    by_cases h : x.2 < a.2
    · rw [if_pos h] at hstep
      rcases ih a with ⟨he, hall⟩ | ⟨t₁, y, t₂, ht, he, hlt, hb, ha⟩
      · refine .inr ⟨[], a, t, by simp, ?_, h, by simp, hall⟩
        rw [hstep, he]
      · refine .inr ⟨a :: t₁, y, t₂, by rw [ht]; exact (List.cons_append _ _ _).symm, ?_, h.trans hlt, ?_, ha⟩
        · rw [hstep, he]
        · intro z hz
          rcases List.mem_cons.mp hz with hz | hz
          · rw [hz]; exact hlt
          · exact hb z hz
    · rw [if_neg h] at hstep
      rcases ih x with ⟨he, hall⟩ | ⟨t₁, y, t₂, ht, he, hlt, hb, ha⟩
      · refine .inl ⟨by rw [hstep, he], ?_⟩
        intro y hy
        rcases List.mem_cons.mp hy with hy | hy
        · rw [hy]; exact le_of_not_lt h
        · exact hall y hy
      · refine .inr ⟨a :: t₁, y, t₂, by rw [ht]; exact (List.cons_append _ _ _).symm, by rw [hstep, he], hlt, ?_, ha⟩
        intro z hz
        rcases List.mem_cons.mp hz with hz | hz
        · rw [hz]; exact (le_of_not_lt h).trans_lt hlt
        · exact hb z hz

/-- C9 theorem: the suggested position is the first-declared position
achieving the maximal score: it appears in the score list, every score is
at most its score, and every position declared before it scores strictly
less. -/
theorem suggested_position_is_first_argmax (stats : Stats) :
    ∃ l₁ best l₂,
      position_scores stats = l₁ ++ best :: l₂ ∧
      get_position_from_stats stats = best.1 ∧
      (∀ q ∈ position_scores stats, q.2 ≤ best.2) ∧
      (∀ q ∈ l₁, q.2 < best.2) := by
  rcases h5 : position_scores stats with _ | ⟨x, xs⟩
  · exact absurd h5 (by simp [position_scores])
  · have hg : get_position_from_stats stats = (maxByFirst x xs).1 := by
      unfold get_position_from_stats
      rw [h5]
    rcases maxByFirst_spec xs x with ⟨he, hall⟩ | ⟨l₁, y, l₂, ht, he, hlt, hb, ha⟩
    · refine ⟨[], x, xs, rfl, by rw [hg, he], ?_, by simp⟩
      intro q hq
      rcases List.mem_cons.mp hq with hq | hq
      · rw [hq]
      · exact hall q hq
    · refine ⟨x :: l₁, y, l₂, by rw [ht]; exact (List.cons_append _ _ _).symm, by rw [hg, he], ?_, ?_⟩
      · intro q hq
        rw [ht] at hq
        rcases List.mem_cons.mp hq with hq | hq
        · rw [hq]; exact hlt.le
        · rcases List.mem_append.mp hq with hq | hq
          · exact (hb q hq).le
          · rcases List.mem_cons.mp hq with hq | hq
            · rw [hq]
            · exact ha q hq
      · intro q hq
        rcases List.mem_cons.mp hq with hq | hq
        · rw [hq]; exact hlt
        · exact hb q hq

theorem statName_mem (n : StatName) : n ∈ statNames := by
  cases n <;> decide

theorem lower_full_inj (m n : StatName) :
    lowerStr (fullName m) = lowerStr (fullName n) → m = n := by
  cases m <;> cases n <;> decide

theorem name_len_ge (n : StatName) : 5 ≤ (fullName n).length := by
  cases n <;> decide

theorem abbr_len_le (n : StatName) : (abbrOf n).length ≤ 4 := by
  cases n <;> decide

theorem occurs_lower_iff (m n : StatName) :
    occursIn (lowerStr (fullName m)) (lowerStr (fullName n)) = true ↔ m = n := by
  cases m <;> cases n <;> decide

theorem find?_first_unique {α : Type} (p : α → Bool) (a : α) :
    ∀ l : List α, a ∈ l → (∀ x ∈ l, p x = true ↔ x = a) → l.find? p = some a
  | [], h, _ => absurd h (by simp)
  | x :: t, h, hp => by
    by_cases hx : x = a
    · subst hx
      rw [List.find?_cons_of_pos _ ((hp x (by simp)).mpr rfl)]
    · rw [List.find?_cons_of_neg _ (fun hc => hx ((hp x (by simp)).mp hc))]
      refine find?_first_unique p a t ?_ ?_
      · rcases List.mem_cons.mp h with h | h
        · exact absurd h.symm hx
        · exact h
      · intro y hy
        exact hp y (List.mem_cons_of_mem _ hy)

/-- Resolution agreement: the source's `validate_stat_name` coincides with
the spec-described priority resolution on every input string. -/
theorem validate_eq_spec_resolve (s : List Char) :
    validate_stat_name s = spec_resolve s := by
  unfold validate_stat_name spec_resolve
  rcases hB : statNames.find? (fun n => lowerStr (fullName n) == lowerStr s) with _ | n₀
  · have hA : statNames.find? (fun n => fullName n == s) = none := by
      rw [List.find?_eq_none] at hB ⊢
      intro n hn hc
      have hfe : fullName n = s := by simpa using hc
      exact hB n hn (by simp [hfe])
    rw [hA]
  · have hp : lowerStr (fullName n₀) = lowerStr s := by
      have h0 := List.find?_some hB
      simpa using h0
    rcases hA : statNames.find? (fun n => fullName n == s) with _ | m
    · have hlen : s.length = (fullName n₀).length := by
        have h1 := congrArg List.length hp
        simpa [lowerStr, List.length_map] using h1.symm
      have habbr : statNames.find? (fun n => upperStr s == abbrOf n) = none := by
        rw [List.find?_eq_none]
        intro n _ hc
        have h2 : upperStr s = abbrOf n := by simpa using hc
        have h3 := congrArg List.length h2
        simp only [upperStr, List.length_map] at h3
        have h4 := name_len_ge n₀
        have h5 := abbr_len_le n
        omega
      rw [habbr]
      have hsub : statNames.find?
          (fun n => occursIn (lowerStr s) (lowerStr (fullName n))) = some n₀ := by
        refine find?_first_unique _ n₀ statNames (statName_mem n₀) ?_
        intro x _
        rw [← hp, occurs_lower_iff n₀ x]
        exact eq_comm
      rw [hsub]
    · have hm : fullName m = s := by
        have h0 := List.find?_some hA
        simpa using h0
      have hmn : m = n₀ := lower_full_inj m n₀ (by rw [hm, hp])
      rw [hmn]

/-- C4 theorem: stat-name resolution agrees with the spec's described
priority order (case-insensitive exact match, then abbreviation match,
then case-insensitive substring match, first match wins) on every input
string; each exact name and each correct-case abbreviation resolves to
its stat, a case-variant exact name and an unambiguous substring resolve
to the same stat, and an unrecognized token resolves to none
(`InvalidStat` at the command layer). -/
theorem stat_name_resolution (s : List Char) :
    validate_stat_name s = spec_resolve s ∧
    (∀ n : StatName, validate_stat_name (fullName n) = some n ∧
      validate_stat_name (abbrOf n) = some n) ∧
    validate_stat_name "détente".data = some .detente ∧
    validate_stat_name "FORCE PHYSIQUE".data = some .force ∧
    validate_stat_name "allon".data = some .ballon ∧
    validate_stat_name "xyz".data = none := by
  refine ⟨validate_eq_spec_resolve s, ?_, by decide, by decide, by decide, by decide⟩
  intro n
  cases n <;> exact ⟨by decide, by decide⟩
